import Mathlib

set_option maxRecDepth 100000

/-!
Verification development for the chat-parsing and labeling services
(`src/main/services/parser.py` and `src/main/services/labeler.py`).

The Python code is shallowly embedded: pure string manipulation is
translated directly, Python exceptions become `Except`, and the two
external effects (the Gemini generation calls and the presence of the
`GOOGLE_API_KEY` credential) are passed in explicitly as oracle
parameters, since the code only ever branches on their observable
outcomes.
-/

/-! ## Python string primitives

Python string operations used by the services, modelled on `String.data`
(`List Char`), which is how Lean 4.14 represents strings.
-/

/-- Characters treated as whitespace by Python `str.strip()` /
regex `\s` (ASCII range, which is all the services rely on). -/
def pySpace (c : Char) : Bool :=
  c == ' ' || c == '\t' || c == '\n' || c == '\r' || c == '\x0b' || c == '\x0c'

/-- Drop characters satisfying `p` from both ends of a character list;
the common core of Python `str.strip()` and `str.strip(chars)`. -/
def stripBothPred (p : Char → Bool) (l : List Char) : List Char :=
  ((l.dropWhile p).reverse.dropWhile p).reverse

/-- Model of Python `s.strip()` (no argument: strips whitespace). -/
def pyStrip (s : String) : String :=
  ⟨stripBothPred pySpace s.data⟩

/-- Characters stripped from both ends of the label at line 70 of
`labeler.py`: double quote, apostrophe, period, comma, exclamation mark
and question mark. -/
def punctChar (c : Char) : Bool :=
  ['"', '\'', '.', ',', '!', '?'].contains c

/-- Model of the Python strip call on the punctuation set above. -/
def pyStripPunct (s : String) : String :=
  ⟨stripBothPred punctChar s.data⟩

/-- Model of the Python slice `s[:n]` (counts code points, as Python does). -/
def pyTake (n : Nat) (s : String) : String :=
  ⟨s.data.take n⟩

/-- Model of the Python slice `s[n:]`. -/
def pyDrop (n : Nat) (s : String) : String :=
  ⟨s.data.drop n⟩

/-- Model of Python `s.lower()` (ASCII-adequate for the fixed tags checked). -/
def pyLower (s : String) : String :=
  ⟨s.data.map Char.toLower⟩

/-- Whether the string begins with the given character (used for the
quick check that the content starts with a brace or a bracket). -/
def startsWithChar (s : String) (c : Char) : Bool :=
  match s.data with
  | [] => false
  | d :: _ => d == c

/-- Whether `pre` is a prefix of `s` (Python `s.startswith(pre)`). -/
def startsWithStr (s pre : String) : Bool :=
  pre.data.isPrefixOf s.data

/-- Model of the two replace calls at line 56 of `parser.py` that
normalize line endings: each CR-LF pair collapses to one LF, and every
remaining CR becomes LF. -/
def normNl : List Char → List Char
  | [] => []
  | '\r' :: '\n' :: t => '\n' :: normNl t
  | '\r' :: t => '\n' :: normNl t
  | c :: t => c :: normNl t

/-- String-level wrapper for `normNl`. -/
def normalizeNewlines (s : String) : String :=
  ⟨normNl s.data⟩

/-! ## JSON values and a model of `json.loads`

The services call the Python standard library `json.loads`. We model its
result type and a decoder for the fragment used by the inputs of this
repository:
`null`, booleans, integers, escape-free strings, arrays and objects.
Inputs outside this fragment (floats, escape sequences) are reported as
a decode failure, which the parser treats the same way as any other
`json.JSONDecodeError`.
-/

/-- Python values produced by `json.loads`. -/
inductive Json where
  | null
  | bool (b : Bool)
  | num (n : Int)
  | str (s : String)
  | arr (elems : List Json)
  | obj (fields : List (String × Json))

/-- JSON insignificant whitespace. -/
def jsonWs (c : Char) : Bool :=
  c == ' ' || c == '\t' || c == '\n' || c == '\r'

/-- Skip leading JSON whitespace. -/
def skipWs : List Char → List Char
  | [] => []
  | c :: t => if jsonWs c then skipWs t else c :: t

/-- Scan a JSON string body after the opening quote (no escape support;
a backslash is a decode failure in this model). -/
def scanJsonString : List Char → Option (String × List Char)
  | [] => none
  | '"' :: t => some ("", t)
  | '\\' :: _ => none
  | c :: t =>
    match scanJsonString t with
    | some (s, rest) => some (⟨c :: s.data⟩, rest)
    | none => none

/-- Maximal run of decimal digits at the head of the list. -/
def scanDigits : List Char → List Char × List Char
  | [] => ([], [])
  | c :: t =>
    if c.isDigit then
      match scanDigits t with
      | (ds, rest) => (c :: ds, rest)
    else ([], c :: t)

/-- Numeric value of a digit run. -/
def digitsToNat (ds : List Char) : Nat :=
  ds.foldl (fun n c => 10 * n + (c.toNat - 48)) 0

mutual

/-- Fuel-indexed recursive-descent JSON value parser. -/
def parseJsonValue : Nat → List Char → Option (Json × List Char)
  | 0, _ => none
  | fuel + 1, cs =>
    match skipWs cs with
    | 'n' :: 'u' :: 'l' :: 'l' :: t => some (Json.null, t)
    | 't' :: 'r' :: 'u' :: 'e' :: t => some (Json.bool true, t)
    | 'f' :: 'a' :: 'l' :: 's' :: 'e' :: t => some (Json.bool false, t)
    | '"' :: t =>
      match scanJsonString t with
      | some (s, rest) => some (Json.str s, rest)
      | none => none
    | '[' :: t =>
      (match skipWs t with
       | ']' :: rest => some (Json.arr [], rest)
       | _ => parseJsonArrayItems fuel t [])
    | '\x7b' :: t =>
      (match skipWs t with
       | '\x7d' :: rest => some (Json.obj [], rest)
       | _ => parseJsonObjectItems fuel t [])
    | '-' :: t =>
      (match scanDigits t with
       | ([], _) => none
       | (ds, rest) => some (Json.num (-(digitsToNat ds : Int)), rest))
    | c :: t =>
      if c.isDigit then
        match scanDigits (c :: t) with
        | (ds, rest) => some (Json.num (digitsToNat ds), rest)
      else none
    | [] => none

/-- Elements of a JSON array after `[` (or after a `,`). -/
def parseJsonArrayItems : Nat → List Char → List Json → Option (Json × List Char)
  | 0, _, _ => none
  | fuel + 1, cs, acc =>
    match parseJsonValue fuel cs with
    | none => none
    | some (v, rest) =>
      match skipWs rest with
      | ',' :: t => parseJsonArrayItems fuel t (acc ++ [v])
      | ']' :: t => some (Json.arr (acc ++ [v]), t)
      | _ => none

/-- Members of a JSON object after `{` (or after a `,`). -/
def parseJsonObjectItems : Nat → List Char → List (String × Json) → Option (Json × List Char)
  | 0, _, _ => none
  | fuel + 1, cs, acc =>
    match skipWs cs with
    | '"' :: t =>
      (match scanJsonString t with
       | none => none
       | some (key, rest) =>
         match skipWs rest with
         | ':' :: t2 =>
           (match parseJsonValue fuel t2 with
            | none => none
            | some (v, rest2) =>
              match skipWs rest2 with
              | ',' :: t3 => parseJsonObjectItems fuel t3 (acc ++ [(key, v)])
              | '\x7d' :: t3 => some (Json.obj (acc ++ [(key, v)]), t3)
              | _ => none)
         | _ => none)
    | _ => none

end

/-- Model of Python `json.loads`: decode one value and require only
whitespace to remain, otherwise it is a `json.JSONDecodeError`. -/
def jsonLoads (s : String) : Option Json :=
  match parseJsonValue (s.data.length + 1) s.data with
  | some (v, rest) => if skipWs rest = [] then some v else none
  | none => none

/-- Dictionary lookup on a decoded JSON object. The Python `json.loads`
keeps the last binding for a duplicated key, hence the `reverse`. -/
def lookupField (fields : List (String × Json)) (key : String) : Option Json :=
  (fields.reverse.find? (fun kv => kv.1 == key)).map (fun kv => kv.2)

/-! ## Data model of the parser service (`parser.py`) -/

/-- Python exceptions that `parser.py` can raise and does not catch. -/
inductive PErr where
  | attributeError
  | typeError
deriving DecidableEq

/-- Mirror of the `ParsedSession` dataclass: one Q&A pair. -/
structure ParsedSession where
  order : Nat
  question : String
  answer : String
deriving DecidableEq

/-- Mirror of the `ParseResult` dataclass. The dataclass annotates
`title`/`platform` as `str`, but Python does not enforce the annotation:
`_parse_json_format` stores whatever `data.get(...)` returned, so the
model keeps them as `Json` values. -/
structure ParseResult where
  sessions : List ParsedSession
  title : Json
  platform : Json

/-- Model of `item.get(key, default).strip()` with the empty string as
default, as used on decoded JSON items
(lines 123-124, 138-139, 203-204 of `parser.py`): a non-object `item`
has no `.get` and a non-string field value has no `.strip()`, both of
which raise `AttributeError` in Python. -/
def pyGetStr (item : Json) (key : String) : Except PErr String :=
  match item with
  | Json.obj fields =>
    match lookupField fields key with
    | none => Except.ok ""
    | some (Json.str s) => Except.ok (pyStrip s)
    | some _ => Except.error PErr.attributeError
  | _ => Except.error PErr.attributeError

/-- Model of the session-collection loop shared by `_parse_json_format`
(lines 121-126 and 136-141) and `_parse_with_ai` (lines 201-206):
`for i, item in enumerate(data, 1): ... if question and answer:
sessions.append(ParsedSession(order=i, ...))`. The counter `i` keeps
advancing over dropped items. -/
def collectGo : List Json → Nat → Except PErr (List ParsedSession)
  | [], _ => Except.ok []
  | item :: rest, i =>
    match pyGetStr item "question" with
    | Except.error e => Except.error e
    | Except.ok question =>
      match pyGetStr item "answer" with
      | Except.error e => Except.error e
      | Except.ok answer =>
        match collectGo rest (i + 1) with
        | Except.error e => Except.error e
        | Except.ok tail =>
          if question ≠ "" ∧ answer ≠ "" then
            Except.ok (ParsedSession.mk i question answer :: tail)
          else
            Except.ok tail

/-- Session collection starting from `enumerate(data, 1)`. -/
def collectSessions (items : List Json) : Except PErr (List ParsedSession) :=
  collectGo items 1

/-- Model of `_parse_json_format` (lines 98-149). Only
`json.JSONDecodeError` is caught; `AttributeError`/`TypeError` from the
loops escape. The top-level-array branch returns a `ParseResult`
unconditionally (even with zero collected sessions), while the object
branch returns `None` unless at least one session was collected. -/
def parse_json_format (content : String) : Except PErr (Option ParseResult) :=
  if !(startsWithChar content '\x7b' || startsWithChar content '[') then
    Except.ok none
  else
    match jsonLoads content with
    | none => Except.ok none
    | some (Json.arr items) =>
      (match collectSessions items with
       | Except.error e => Except.error e
       | Except.ok sessions =>
         Except.ok (some (ParseResult.mk sessions (Json.str "") (Json.str "unknown"))))
    | some (Json.obj fields) =>
      let title := (lookupField fields "title").getD (Json.str "")
      let platform := (lookupField fields "platform").getD (Json.str "unknown")
      (match (lookupField fields "sessions").getD (Json.arr []) with
       | Json.arr rawSessions =>
         (match collectSessions rawSessions with
          | Except.error e => Except.error e
          | Except.ok sessions =>
            if sessions ≠ [] then
              Except.ok (some (ParseResult.mk sessions title platform))
            else
              Except.ok none)
       | Json.str s =>
         -- `enumerate` over a string iterates its characters, each a
         -- Python `str` with no `.get`: AttributeError unless empty.
         if s = "" then Except.ok none else Except.error PErr.attributeError
       | Json.obj kvs =>
         -- `enumerate` over a dict iterates its keys (strings).
         if kvs.isEmpty then Except.ok none else Except.error PErr.attributeError
       | _ => Except.error PErr.typeError)
    | some _ => Except.ok none

/-- Observable outcome of the Gemini call inside `_parse_with_ai`
(lines 152-212): the key may be missing, the call or the JSON decode of
the response may fail (every exception is caught and yields `[]`), or
the response decodes to a list of Q&A items. -/
inductive AiOutcome where
  | noKey
  | callFailed
  | decoded (qaPairs : List Json)

/-- Model of `_parse_with_ai`: the whole body runs inside
`try/except Exception`, so any failure (including `AttributeError` from
the collection loop) produces `[]`. -/
def parse_with_ai (ai : AiOutcome) (_content : String) : List ParsedSession :=
  match ai with
  | AiOutcome.noKey => []
  | AiOutcome.callFailed => []
  | AiOutcome.decoded qaPairs =>
    match collectSessions qaPairs with
    | Except.ok sessions => sessions
    | Except.error _ => []

/-- Model of the Python join of parts with a blank line separator. -/
def joinBlank : List String → String
  | [] => ""
  | [a] => a
  | a :: b :: rest => a ++ "\n\n" ++ joinBlank (b :: rest)

/-- Paragraph splitter used by `_parse_fallback`:
`re.split` on the pattern `\n\s*\n+`. A separator match starts at a newline
whose maximal following whitespace run contains at least one more
newline; greedy backtracking makes the match end at the last newline of
that run. Fuel is the input length plus one; every step consumes at
least one character, so the fuel never runs out. -/
def splitLoop : Nat → List Char → List Char → List (List Char)
  | 0, acc, rest => [acc.reverse ++ rest]
  | _ + 1, acc, [] => [acc.reverse]
  | fuel + 1, acc, c :: t =>
    if c = '\n' then
      let run := (c :: t).takeWhile pySpace
      if 2 ≤ run.count '\n' then
        let trailing := (run.reverse.takeWhile (fun d => !(d == '\n'))).length
        let sepLen := run.length - trailing
        acc.reverse :: splitLoop fuel [] ((c :: t).drop sepLen)
      else
        splitLoop fuel (c :: acc) t
    else
      splitLoop fuel (c :: acc) t

/-- Raw paragraph split of a string. -/
def rawSplit (s : String) : List String :=
  (splitLoop (s.data.length + 1) [] s.data).map (fun l => ⟨l⟩)

/-- Model of lines 219-220 of `parser.py`: split the stripped content
on the pattern `\n\s*\n+`, strip each paragraph and keep the non-empty
ones. -/
def paragraphsOf (content : String) : List String :=
  ((rawSplit (pyStrip content)).map pyStrip).filter (fun p => !(p == ""))

/-- Model of the pairing loop of `_parse_fallback` (lines 222-245):
while `i < len(paragraphs) - 1`, pair paragraph `i` with paragraph `i+1`
when the former is under 500 characters and the latter over 200, then
absorb following paragraphs over 300 characters into the answer and jump
past them; otherwise advance by one. Fuel `paragraphs.length` suffices
because `i` strictly increases on every iteration. -/
def fallbackLoop : Nat → List String → Nat → Nat → List ParsedSession
  | 0, _, _, _ => []
  | fuel + 1, paragraphs, i, order =>
    if i + 1 < paragraphs.length then
      let current := paragraphs.getD i ""
      let next_para := paragraphs.getD (i + 1) ""
      if current.length < 500 ∧ next_para.length > 200 then
        let answer_tail := (paragraphs.drop (i + 2)).takeWhile (fun p => p.length > 300)
        ParsedSession.mk order current (joinBlank (next_para :: answer_tail)) ::
          fallbackLoop fuel paragraphs (i + 2 + answer_tail.length) (order + 1)
      else
        fallbackLoop fuel paragraphs (i + 1) order
    else []

/-- Model of `_parse_fallback` (lines 215-245). -/
def parse_fallback (content : String) : List ParsedSession :=
  let paragraphs := paragraphsOf content
  fallbackLoop paragraphs.length paragraphs 0 1

/-- Model of `parse_chat` (lines 33-64): strip, try the JSON stage (a
non-`None` `ParseResult` is truthy in Python, so it is returned even
when its session list is empty), then normalize line endings, try the
AI stage, and finally fall back to heuristic pairing. -/
def parse_chat (ai : AiOutcome) (content : String) : Except PErr (List ParsedSession) :=
  match parse_json_format (pyStrip content) with
  | Except.error e => Except.error e
  | Except.ok (some result) => Except.ok result.sessions
  | Except.ok none =>
    if parse_with_ai ai (normalizeNewlines (pyStrip content)) ≠ [] then
      Except.ok (parse_with_ai ai (normalizeNewlines (pyStrip content)))
    else
      Except.ok (parse_fallback (normalizeNewlines (pyStrip content)))

/-- Message returned by `validate_parsed_sessions` for an empty result. -/
def noSessionsMsg : String :=
  "No Q&A sessions found. Please check the format or try using the browser scraper."

/-- Message returned when every parsed question is empty. -/
def allEmptyMsg : String :=
  "All questions are empty. Please check the format."

/-- Model of `validate_parsed_sessions` (lines 248-258). -/
def validate_parsed_sessions (sessions : List ParsedSession) : Bool × String :=
  if sessions = [] then (false, noSessionsMsg)
  else
    let empty_questions := sessions.countP (fun s => s.question == "")
    if empty_questions = sessions.length then (false, allEmptyMsg)
    else (true, "")

/-! ## Data model of the labeling service (`labeler.py`)

The two external effects of `generate_label` are the credential lookup in
`get_client` and the two possible `model.generate_content` invocations
(initial attempt and the single retry). They are supplied as an explicit
environment; everything else is translated directly.
-/

/-- Observable outcome of one `model.generate_content` call: either the
response text, or an exception whose `str(e)` is the given message. -/
inductive CallOutcome where
  | success (text : String)
  | failure (msg : String)

/-- External environment of one `generate_label` invocation. -/
structure LabelEnv where
  hasKey : Bool
  call1 : CallOutcome
  call2 : CallOutcome

/-- Message of the `ValueError` raised by `get_client` (lines 24-27 of
`labeler.py`) when `GOOGLE_API_KEY` is not set. -/
def keyMissingMsg : String :=
  "GOOGLE_API_KEY environment variable is not set. Please set it in your env/gemini_api_key.env file."

/-- Model of `get_client` (lines 11-29): raises `ValueError` when the
key is missing, otherwise returns the configured model handle. -/
def get_client (env : LabelEnv) : Except String Unit :=
  if env.hasKey then Except.ok () else Except.error keyMissingMsg

/-- Sentinel label returned on any labeling failure (line 107). -/
def fallbackLabel : String := "Session (labeling failed)"

/-- Truncation applied to the question (cap 500) and the answer
(cap 1000) before prompt construction (lines 39-42):
`s[:cap] + "..." if len(s) > cap else s`. -/
def truncateWithEllipsis (cap : Nat) (s : String) : String :=
  if s.length > cap then pyTake cap s ++ "..." else s

/-- The labeling prompt (lines 44-62) assembled from the truncated
question and answer. -/
def labelPrompt (qTruncated aTruncated : String) : String :=
  "You are a helpful assistant that creates concise topic labels for educational Q&A sessions.\n\nYour task: Read the question and answer below, then create a SHORT topic label (2-6 words maximum) that captures the main concept.\n\nQuestion: "
    ++ qTruncated
    ++ "\n\nAnswer: "
    ++ aTruncated
    ++ "\n\nInstructions:\n- Create a label that describes the TOPIC, not the question structure\n- Use 2-6 words maximum\n- Be specific and descriptive\n- Use title case\n- Do NOT include quotes or punctuation\n- Output ONLY the label, nothing else\n\nExamples: \"Deep Learning vs Machine Learning\" | \"Neural Network Architectures\" | \"Loss Functions in ML\"\n\nLabel:"

/-- Removal of the leading tags `label:`, `topic:`, `title:`
(lines 73-75): each is tried in turn against the lowercased current
label; on a hit the tag is sliced off and the remainder stripped. -/
def dropTags (label : String) : String :=
  (["label:", "topic:", "title:"] : List String).foldl
    (fun lab tag =>
      if startsWithStr (pyLower lab) tag then pyStrip (pyDrop tag.length lab) else lab)
    label

/-- Post-processing of a first-attempt response (lines 66-79): strip
whitespace, strip quote/punctuation characters, drop leading tags, and
hard-cap at 100 characters. -/
def processResponse (t : String) : String :=
  let label := pyStrip t
  let label := pyStripPunct label
  let label := dropTags label
  if label.length > 100 then pyTake 100 label else label

/-- Post-processing of a successful retry response (line 100):
whitespace strip followed by the punctuation strip only — no tag
removal and no 100-character cap on this path. -/
def processRetryResponse (t : String) : String :=
  pyStripPunct (pyStrip t)

/-- Body of the `try` block of `generate_label` (lines 35-85): get the
client (may raise `ValueError`), truncate, build the prompt, call the
provider; a provider exception propagates to the handler. -/
def generateLabelTry (env : LabelEnv) (question answer : String) : Except String String :=
  match get_client env with
  | Except.error e => Except.error e
  | Except.ok _ =>
    let qTruncated := truncateWithEllipsis 500 question
    let aTruncated := truncateWithEllipsis 1000 answer
    let _prompt := labelPrompt qTruncated aTruncated
    match env.call1 with
    | CallOutcome.success t => Except.ok (processResponse t)
    | CallOutcome.failure m => Except.error m

/-- Whether `pat` occurs as a contiguous subsequence of the list
(Python `pat in s` on strings). -/
def hasSubstr (pat : List Char) : List Char → Bool
  | [] => pat.isEmpty
  | c :: t => pat.isPrefixOf (c :: t) || hasSubstr pat t

/-- Rate-limit detection (line 94):
`"ResourceExhausted" in str(e) or "429" in str(e)`. -/
def isRateLimitMsg (m : String) : Bool :=
  hasSubstr "ResourceExhausted".data m.data || hasSubstr "429".data m.data

/-- Retry block (lines 97-104): a fresh `get_client`, one more provider
call, light post-processing; any exception here is swallowed by the bare
`except: pass`. (When the first failure came from `get_client` itself
the retry body would hit a `NameError` on `prompt`, but that branch is
unreachable: the `ValueError` message contains no rate-limit marker.) -/
def generateLabelRetry (env : LabelEnv) : Except String String :=
  match get_client env with
  | Except.error e => Except.error e
  | Except.ok _ =>
    match env.call2 with
    | CallOutcome.success t => Except.ok (processRetryResponse t)
    | CallOutcome.failure m => Except.error m

/-- Model of `generate_label` (lines 31-107): the whole body is wrapped
in `try/except Exception`; on a rate-limit message the call is retried
exactly once, and every failing path returns the fallback sentinel. -/
def generate_label (env : LabelEnv) (question answer : String) : String :=
  match generateLabelTry env question answer with
  | Except.ok label => label
  | Except.error e =>
    if isRateLimitMsg e then
      match generateLabelRetry env with
      | Except.ok label => label
      | Except.error _ => fallbackLabel
    else fallbackLabel

/-! ## Concrete inputs used by the claim theorems and witnesses -/

/-- A 50-character paragraph. -/
def para50 : String := ⟨List.replicate 50 'a'⟩

/-- Four short (~50 character) paragraphs separated by blank lines. -/
def fourParas : String :=
  para50 ++ "\n\n" ++ para50 ++ "\n\n" ++ para50 ++ "\n\n" ++ para50

/-- A short question paragraph. -/
def shortQ1 : String := "What is X?"

/-- A 250-character answer paragraph. -/
def longA1 : String := ⟨List.replicate 250 'b'⟩

/-- A second short question paragraph. -/
def shortQ2 : String := "What is Y?"

/-- A second 250-character answer paragraph. -/
def longA2 : String := ⟨List.replicate 250 'c'⟩

/-- Document alternating short question and long answer paragraphs. -/
def qaDoc : String :=
  shortQ1 ++ "\n\n" ++ longA1 ++ "\n\n" ++ shortQ2 ++ "\n\n" ++ longA2

/-- JSON array whose middle element lacks the question/answer fields. -/
def gapJson : String :=
  "[\x7b\"question\":\"a\",\"answer\":\"b\"\x7d,\x7b\"x\":0\x7d,\x7b\"question\":\"c\",\"answer\":\"d\"\x7d]"

/-- JSON array with a single well-formed entry. -/
def simpleJson : String :=
  "[\x7b\"question\":\"hi\",\"answer\":\"there\"\x7d]"

/-- A well-formed decoded Q&A pair, used as an AI-stage oracle value. -/
def qaPairJson : Json :=
  Json.obj [("question", Json.str "q"), ("answer", Json.str "a")]

/-- Labeler environment with no credential configured. -/
def noKeyEnv : LabelEnv :=
  LabelEnv.mk false (CallOutcome.success "Fine Label") (CallOutcome.success "Fine Label")

/-- Labeler environment whose first call hits a rate limit and whose
retry returns a 150-character response. -/
def rateLimitEnv : LabelEnv :=
  LabelEnv.mk true (CallOutcome.failure "429 Resource has been exhausted")
    (CallOutcome.success ⟨List.replicate 150 'x'⟩)

/-- Labeler environment where both calls succeed. -/
def okEnv : LabelEnv :=
  LabelEnv.mk true (CallOutcome.success "Raw Label") (CallOutcome.success "Raw Label")

/-- A 600-character question, longer than the 500-character cap. -/
def q600 : String := ⟨List.replicate 600 'q'⟩

/-! ## Basic lemmas about the string primitives -/

/-- The head of a list (if any) does not satisfy `p`. -/
def headClear (p : Char → Bool) : List Char → Prop
  | [] => True
  | c :: _ => p c = false

theorem headClear_dropWhile (p : Char → Bool) (l : List Char) :
    headClear p (l.dropWhile p) := by
  induction l with
  | nil => trivial
  | cons c t ih =>
    by_cases h : p c = true
    · simpa [List.dropWhile_cons, h] using ih
    · simp only [Bool.not_eq_true] at h
      simp [List.dropWhile_cons, h, headClear]

theorem dropWhile_of_headClear (p : Char → Bool) (l : List Char)
    (h : headClear p l) : l.dropWhile p = l := by
  cases l with
  | nil => rfl
  | cons c t => simp [List.dropWhile_cons, headClear] at h ⊢; simp [h]

theorem headClear_trimRight (p : Char → Bool) (M : List Char)
    (h : headClear p M) : headClear p (M.reverse.dropWhile p).reverse := by
  cases M with
  | nil => simp [headClear]
  | cons c t =>
    simp only [headClear] at h
    rw [List.reverse_cons, List.dropWhile_append]
    by_cases he : (t.reverse.dropWhile p).isEmpty
    · simp only [he, if_pos]
      simp [List.dropWhile_cons, h, headClear]
    · simp only [he, if_neg, Bool.false_eq_true, not_false_iff]
      simp [headClear, h]

theorem headClear_stripBothPred (p : Char → Bool) (l : List Char) :
    headClear p (stripBothPred p l) :=
  headClear_trimRight p (l.dropWhile p) (headClear_dropWhile p l)

theorem headClear_reverse_stripBothPred (p : Char → Bool) (l : List Char) :
    headClear p (stripBothPred p l).reverse := by
  unfold stripBothPred
  rw [List.reverse_reverse]
  exact headClear_dropWhile p _

theorem stripBothPred_of_clear (p : Char → Bool) (l : List Char)
    (h1 : headClear p l) (h2 : headClear p l.reverse) :
    stripBothPred p l = l := by
  unfold stripBothPred
  rw [dropWhile_of_headClear p l h1, dropWhile_of_headClear p l.reverse h2,
    List.reverse_reverse]

theorem stripBothPred_idem (p : Char → Bool) (l : List Char) :
    stripBothPred p (stripBothPred p l) = stripBothPred p l :=
  stripBothPred_of_clear p _ (headClear_stripBothPred p l)
    (headClear_reverse_stripBothPred p l)

theorem pyStrip_idem (s : String) : pyStrip (pyStrip s) = pyStrip s := by
  unfold pyStrip
  exact congrArg String.mk (stripBothPred_idem pySpace s.data)

theorem string_length_mk (l : List Char) : (String.mk l).length = l.length := rfl

theorem string_length_append (s t : String) : (s ++ t).length = s.length + t.length :=
  String.length_append s t

theorem string_ne_empty_of_length_pos (s : String) (h : 0 < s.length) : s ≠ "" := by
  intro he
  rw [he] at h
  simp [String.length] at h

theorem pyTake_length_le (n : Nat) (s : String) : (pyTake n s).length ≤ n := by
  unfold pyTake
  rw [string_length_mk, List.length_take]
  omega

theorem joinBlank_length_ge (a : String) (l : List String) :
    a.length ≤ (joinBlank (a :: l)).length := by
  cases l with
  | nil => simp [joinBlank]
  | cons b bs => simp [joinBlank, string_length_append]; omega

/-! ## Invariants of the session-producing functions -/

theorem getD_mem_of_lt (l : List String) (n : Nat) (d : String)
    (h : n < l.length) : l.getD n d ∈ l := by
  induction l generalizing n with
  | nil => simp at h
  | cons a t ih =>
    cases n with
    | zero => simp [List.getD]
    | succ m =>
      have : m < t.length := by simpa using h
      simp only [List.getD_cons_succ]
      exact List.mem_cons_of_mem a (ih m this)

theorem pyGetStr_stripped (item : Json) (key : String) (q : String)
    (h : pyGetStr item key = Except.ok q) : pyStrip q = q := by
  unfold pyGetStr at h
  cases item with
  | obj fields =>
    dsimp only at h
    cases hl : lookupField fields key with
    | none =>
      rw [hl] at h
      dsimp only at h
      simp at h
      subst h
      rfl
    | some v =>
      rw [hl] at h
      cases v <;> simp at h
      subst h
      exact pyStrip_idem _
  | null => simp at h
  | bool b => simp at h
  | num n => simp at h
  | str s => simp at h
  | arr elems => simp at h

theorem collectGo_inv (items : List Json) :
    ∀ (i : Nat) (sessions : List ParsedSession),
      collectGo items i = Except.ok sessions →
      (∀ s ∈ sessions,
          i ≤ s.order ∧ s.question ≠ "" ∧ s.answer ≠ "" ∧
          pyStrip s.question = s.question) ∧
      sessions.Pairwise (fun a b => a.order < b.order) := by
  induction items with
  | nil =>
    intro i sessions h
    simp only [collectGo] at h
    simp at h
    subst h
    simp
  | cons item rest ih =>
    intro i sessions h
    simp only [collectGo] at h
    cases hq : pyGetStr item "question" with
    | error e => rw [hq] at h; simp at h
    | ok question =>
      rw [hq] at h
      cases ha : pyGetStr item "answer" with
      | error e => rw [ha] at h; simp at h
      | ok answer =>
        rw [ha] at h
        cases hr : collectGo rest (i + 1) with
        | error e => rw [hr] at h; simp at h
        | ok tail =>
          rw [hr] at h
          dsimp only at h
          obtain ⟨ihAll, ihPw⟩ := ih (i + 1) tail hr
          by_cases hc : question ≠ "" ∧ answer ≠ ""
          · rw [if_pos hc] at h
            simp at h
            subst h
            constructor
            · intro s hs
              rcases List.mem_cons.mp hs with rfl | hs'
              · exact ⟨Nat.le_refl i, hc.1, hc.2, pyGetStr_stripped _ _ _ hq⟩
              · obtain ⟨h1, h2, h3, h4⟩ := ihAll s hs'
                exact ⟨by omega, h2, h3, h4⟩
            · rw [List.pairwise_cons]
              refine ⟨fun b hb => ?_, ihPw⟩
              have := (ihAll b hb).1
              simp only []
              omega
          · rw [if_neg hc] at h
            simp at h
            subst h
            refine ⟨fun s hs => ?_, ihPw⟩
            obtain ⟨h1, h2, h3, h4⟩ := ihAll s hs
            exact ⟨by omega, h2, h3, h4⟩

theorem fallbackLoop_inv (fuel : Nat) :
    ∀ (paragraphs : List String) (i order : Nat),
      (∀ p ∈ paragraphs, p ≠ "" ∧ pyStrip p = p) →
      (∀ s ∈ fallbackLoop fuel paragraphs i order,
          order ≤ s.order ∧ s.question ≠ "" ∧ s.answer ≠ "" ∧
          pyStrip s.question = s.question) ∧
      (fallbackLoop fuel paragraphs i order).Pairwise
        (fun a b => a.order < b.order) := by
  induction fuel with
  | zero => intro paragraphs i order _; simp [fallbackLoop]
  | succ fuel ih =>
    intro paragraphs i order hp
    simp only [fallbackLoop]
    by_cases h : i + 1 < paragraphs.length
    · rw [if_pos h]
      by_cases hc : (paragraphs.getD i "").length < 500 ∧
          (paragraphs.getD (i + 1) "").length > 200
      · rw [if_pos hc]
        have hcur : paragraphs.getD i "" ∈ paragraphs :=
          getD_mem_of_lt paragraphs i "" (by omega)
        obtain ⟨hqne, hqstr⟩ := hp _ hcur
        have hans : joinBlank (paragraphs.getD (i + 1) "" ::
            (paragraphs.drop (i + 2)).takeWhile (fun p => p.length > 300)) ≠ "" := by
          apply string_ne_empty_of_length_pos
          have := joinBlank_length_ge (paragraphs.getD (i + 1) "")
            ((paragraphs.drop (i + 2)).takeWhile (fun p => p.length > 300))
          omega
        obtain ⟨ihAll, ihPw⟩ := ih paragraphs
          (i + 2 + ((paragraphs.drop (i + 2)).takeWhile (fun p => p.length > 300)).length)
          (order + 1) hp
        constructor
        · intro s hs
          rcases List.mem_cons.mp hs with rfl | hs'
          · exact ⟨Nat.le_refl order, hqne, hans, hqstr⟩
          · obtain ⟨h1, h2, h3, h4⟩ := ihAll s hs'
            exact ⟨by omega, h2, h3, h4⟩
        · rw [List.pairwise_cons]
          refine ⟨fun b hb => ?_, ihPw⟩
          have := (ihAll b hb).1
          simp only []
          omega
      · rw [if_neg hc]
        exact ih paragraphs (i + 1) order hp
    · rw [if_neg h]
      simp

theorem paragraphsOf_good (content : String) :
    ∀ p ∈ paragraphsOf content, p ≠ "" ∧ pyStrip p = p := by
  intro p hp
  unfold paragraphsOf at hp
  rw [List.mem_filter] at hp
  obtain ⟨hmem, hpred⟩ := hp
  rw [List.mem_map] at hmem
  obtain ⟨raw, _, rfl⟩ := hmem
  refine ⟨?_, pyStrip_idem raw⟩
  simpa using hpred

theorem parse_fallback_inv (content : String) :
    (∀ s ∈ parse_fallback content,
        1 ≤ s.order ∧ s.question ≠ "" ∧ s.answer ≠ "" ∧
        pyStrip s.question = s.question) ∧
    (parse_fallback content).Pairwise (fun a b => a.order < b.order) := by
  unfold parse_fallback
  exact fallbackLoop_inv _ _ 0 1 (paragraphsOf_good content)

theorem parse_with_ai_inv (ai : AiOutcome) (content : String) :
    (∀ s ∈ parse_with_ai ai content,
        1 ≤ s.order ∧ s.question ≠ "" ∧ s.answer ≠ "" ∧
        pyStrip s.question = s.question) ∧
    (parse_with_ai ai content).Pairwise (fun a b => a.order < b.order) := by
  cases ai with
  | noKey => simp [parse_with_ai]
  | callFailed => simp [parse_with_ai]
  | decoded qaPairs =>
    simp only [parse_with_ai]
    cases hc : collectSessions qaPairs with
    | error e => simp
    | ok sessions => exact collectGo_inv qaPairs 1 sessions hc

theorem parse_json_format_inv (content : String) (r : ParseResult)
    (h : parse_json_format content = Except.ok (some r)) :
    (∀ s ∈ r.sessions,
        1 ≤ s.order ∧ s.question ≠ "" ∧ s.answer ≠ "" ∧
        pyStrip s.question = s.question) ∧
    r.sessions.Pairwise (fun a b => a.order < b.order) := by
  unfold parse_json_format at h
  by_cases hs : (!(startsWithChar content '\x7b' || startsWithChar content '[')) = true
  · rw [if_pos hs] at h
    simp at h
  · rw [if_neg hs] at h
    cases hj : jsonLoads content with
    | none => rw [hj] at h; simp at h
    | some v =>
      rw [hj] at h
      cases v with
      | arr items =>
        dsimp only at h
        cases hc : collectSessions items with
        | error e => rw [hc] at h; simp at h
        | ok sessions =>
          rw [hc] at h
          dsimp only at h
          simp at h
          subst h
          exact collectGo_inv items 1 sessions hc
      | obj fields =>
        dsimp only at h
        cases hf : (lookupField fields "sessions").getD (Json.arr []) with
        | arr rawSessions =>
          rw [hf] at h
          dsimp only at h
          cases hc : collectSessions rawSessions with
          | error e => rw [hc] at h; simp at h
          | ok sessions =>
            rw [hc] at h
            dsimp only at h
            by_cases hne : sessions ≠ []
            · rw [if_pos hne] at h
              simp at h
              subst h
              exact collectGo_inv rawSessions 1 sessions hc
            · rw [if_neg hne] at h
              simp at h
        | str s =>
          rw [hf] at h
          dsimp only at h
          by_cases hse : s = "" <;> simp [hse] at h
        | obj kvs =>
          rw [hf] at h
          dsimp only at h
          by_cases hke : kvs.isEmpty = true <;> simp [hke] at h
        | null => rw [hf] at h; simp at h
        | bool b => rw [hf] at h; simp at h
        | num n => rw [hf] at h; simp at h
      | null => simp at h
      | bool b => simp at h
      | num n => simp at h
      | str s => simp at h

theorem parse_chat_inv (ai : AiOutcome) (content : String)
    (sessions : List ParsedSession)
    (h : parse_chat ai content = Except.ok sessions) :
    (∀ s ∈ sessions,
        1 ≤ s.order ∧ s.question ≠ "" ∧ s.answer ≠ "" ∧
        pyStrip s.question = s.question) ∧
    sessions.Pairwise (fun a b => a.order < b.order) := by
  unfold parse_chat at h
  cases hj : parse_json_format (pyStrip content) with
  | error e => rw [hj] at h; simp at h
  | ok o =>
    rw [hj] at h
    cases o with
    | some r =>
      dsimp only at h
      simp at h
      rw [← h]
      exact parse_json_format_inv (pyStrip content) r hj
    | none =>
      dsimp only at h
      by_cases ha : parse_with_ai ai (normalizeNewlines (pyStrip content)) ≠ []
      · rw [if_pos ha] at h
        simp at h
        rw [← h]
        exact parse_with_ai_inv ai (normalizeNewlines (pyStrip content))
      · rw [if_neg ha] at h
        simp at h
        rw [← h]
        exact parse_fallback_inv (normalizeNewlines (pyStrip content))

/-! ## Lemmas about the labeler -/

theorem processResponse_le_100 (t : String) : (processResponse t).length ≤ 100 := by
  simp only [processResponse]
  split
  · exact pyTake_length_le 100 _
  · omega

theorem truncateWithEllipsis_le (cap : Nat) (s : String) :
    (truncateWithEllipsis cap s).length ≤ cap + 3 := by
  simp only [truncateWithEllipsis]
  split
  · rw [string_length_append]
    have h1 := pyTake_length_le cap s
    have h2 : ("..." : String).length = 3 := rfl
    omega
  · omega

/-! ## Claim theorems -/

/-- C1 (code bug): the spec declares `parse` a total function that never
raises on malformed input, but `_parse_json_format` catches only
`json.JSONDecodeError`; on the input `"[1]"` — a JSON array whose element
is not an object — the `item.get` call is attribute access on an `int`
and the resulting `AttributeError` escapes `parse_chat`. -/
theorem c1_parse_chat_raises_on_nonobject_item :
    parse_chat AiOutcome.noKey "[1]" = Except.error PErr.attributeError := rfl

/-- C2 (counterexample): the claim predicts that
`"Human: hi\nAssistant: hello there"` parses to one turn with question
`"hi"` and answer `"hello there"`; the code has no marker-based stage,
and with the AI stage yielding nothing the input reaches the paragraph
fallback, which returns zero turns. -/
theorem c2_marker_input_counterexample :
    parse_chat AiOutcome.noKey "Human: hi\nAssistant: hello there" = Except.ok [] ∧
    parse_chat AiOutcome.noKey "Human: hi\nAssistant: hello there" ≠
      Except.ok [ParsedSession.mk 1 "hi" "hello there"] :=
  ⟨rfl, by intro h; injection h with h2; exact List.noConfusion h2⟩

/-- C2 (amended): the parser interprets no asker/responder role markers.
The marker example is a single paragraph (no blank line), so with AI
parsing unavailable the fallback pairs nothing and `parse_chat` returns
zero turns. -/
theorem c2_no_marker_stage_amended :
    parse_chat AiOutcome.noKey "Human: hi\nAssistant: hello there" = Except.ok [] ∧
    paragraphsOf "Human: hi\nAssistant: hello there" =
      ["Human: hi\nAssistant: hello there"] ∧
    parse_fallback "Human: hi\nAssistant: hello there" = [] :=
  ⟨rfl, rfl, rfl⟩

/-- C3 (counterexample): the claim predicts that four short ~50-character
paragraphs produce 2 turns pairing (1,2) and (3,4); the fallback pairs a
paragraph only with a following paragraph longer than 200 characters, so
these four paragraphs produce zero turns. -/
theorem c3_four_short_paragraphs_counterexample :
    parse_chat AiOutcome.noKey fourParas = Except.ok [] ∧
    parse_chat AiOutcome.noKey fourParas ≠
      Except.ok [ParsedSession.mk 1 para50 para50, ParsedSession.mk 2 para50 para50] :=
  ⟨rfl, by intro h; injection h with h2; exact List.noConfusion h2⟩

/-- C3 (amended): the fallback pairs paragraph `i` as question with
paragraph `i+1` as answer only when `len(paragraph[i]) < 500` and
`len(paragraph[i+1]) > 200` (absorbing following paragraphs over 300
characters into the answer), advancing by one otherwise; four short
~50-character paragraphs therefore yield zero turns, while alternating
short-question / 250-character-answer paragraphs pair as (1,2), (3,4). -/
theorem c3_fallback_pairing_amended :
    parse_chat AiOutcome.noKey fourParas = Except.ok [] ∧
    parse_chat AiOutcome.noKey qaDoc = Except.ok
      [ParsedSession.mk 1 shortQ1 longA1, ParsedSession.mk 2 shortQ2 longA2] :=
  ⟨rfl, rfl⟩

/-- C5 (counterexample): the claim says a missing credential propagates
to the caller of the label generator, distinct from in-flight provider
errors; in the code `generate_label` wraps `get_client` in its
`try/except Exception`, so the `ValueError` is caught and the caller
receives the same sentinel string as for any provider error. -/
theorem c5_missing_key_not_raised_counterexample :
    generateLabelTry noKeyEnv "q" "a" = Except.error keyMissingMsg ∧
    generate_label noKeyEnv "q" "a" = fallbackLabel ∧
    generate_label (LabelEnv.mk true (CallOutcome.failure "provider boom")
      (CallOutcome.success "x")) "q" "a" = fallbackLabel :=
  ⟨rfl, rfl, rfl⟩

/-- C5 (amended): with no API key configured, `get_client` raises
`ValueError`, but `generate_label` catches it like any other in-flight
failure and returns the sentinel label without consulting the provider
and without retrying (the `ValueError` message contains no rate-limit
marker); the condition is not surfaced to the caller of
`generate_label`. -/
theorem c5_missing_key_sentinel_amended :
    ∀ (c1 c2 : CallOutcome) (q a : String),
      generateLabelTry (LabelEnv.mk false c1 c2) q a = Except.error keyMissingMsg ∧
      generate_label (LabelEnv.mk false c1 c2) q a = fallbackLabel ∧
      isRateLimitMsg keyMissingMsg = false :=
  fun _ _ _ _ => ⟨rfl, rfl, rfl⟩

/-- C6 (counterexample): the claim says the returned label is at most
100 characters on every return path including a successful retry after a
rate limit; the retry path applies only `strip()` and punctuation
stripping and no 100-character cap, so a 150-character retry response is
returned whole. -/
theorem c6_retry_label_over_100_counterexample :
    100 < (generate_label rateLimitEnv "q" "a").length := by decide

/-- C6 (amended): the question is truncated to 500 characters and the
answer to 1000 (appending an ellipsis when truncated) before prompt
construction, and the returned label is at most 100 characters on the
first-attempt success path; the retry path after a rate limit applies no
100-character cap. -/
theorem c6_truncation_amended :
    (∀ q : String, q.length ≤ 500 → truncateWithEllipsis 500 q = q) ∧
    (∀ q : String, 500 < q.length →
      truncateWithEllipsis 500 q = pyTake 500 q ++ "...") ∧
    (∀ a : String, a.length ≤ 1000 → truncateWithEllipsis 1000 a = a) ∧
    (∀ a : String, 1000 < a.length →
      truncateWithEllipsis 1000 a = pyTake 1000 a ++ "...") ∧
    (∀ (env : LabelEnv) (q a t : String), env.hasKey = true →
      env.call1 = CallOutcome.success t →
      (generate_label env q a).length ≤ 100) := by
  refine ⟨?_, ?_, ?_, ?_, ?_⟩
  · intro q h
    unfold truncateWithEllipsis
    rw [if_neg (show ¬ q.length > 500 by omega)]
  · intro q h
    unfold truncateWithEllipsis
    rw [if_pos (show q.length > 500 from h)]
  · intro a h
    unfold truncateWithEllipsis
    rw [if_neg (show ¬ a.length > 1000 by omega)]
  · intro a h
    unfold truncateWithEllipsis
    rw [if_pos (show a.length > 1000 from h)]
  · intro env q a t hk h1
    obtain ⟨hk', c1, c2⟩ := env
    dsimp only at hk h1
    subst hk
    subst h1
    exact processResponse_le_100 t

/-- C6 (witness): the truncation and the first-attempt cap at concrete
inputs. -/
theorem c6_truncation_witness :
    truncateWithEllipsis 500 q600 = pyTake 500 q600 ++ "..." ∧
    (generate_label okEnv "q" "a").length ≤ 100 :=
  ⟨c6_truncation_amended.2.1 q600 (by decide),
   c6_truncation_amended.2.2.2.2 okEnv "q" "a" "Raw Label" rfl rfl⟩

/-- C7 (confirmed): `generate_label` never propagates an internal
failure: with no key, or when the first provider call fails with a
non-rate-limit message, or when the retry after a rate-limit message
fails again, it returns exactly the sentinel; when the retry succeeds it
returns the lightly post-processed retry response. The retry is
consulted exactly once, and the backoff sleeps are outside the model. -/
theorem c7_label_failure_handling :
    ∀ (env : LabelEnv) (question answer : String),
      (env.hasKey = false → generate_label env question answer = fallbackLabel) ∧
      (∀ m, env.call1 = CallOutcome.failure m → isRateLimitMsg m = false →
        generate_label env question answer = fallbackLabel) ∧
      (∀ m m2, env.call1 = CallOutcome.failure m → isRateLimitMsg m = true →
        env.call2 = CallOutcome.failure m2 →
        generate_label env question answer = fallbackLabel) ∧
      (∀ m t, env.hasKey = true → env.call1 = CallOutcome.failure m →
        isRateLimitMsg m = true → env.call2 = CallOutcome.success t →
        generate_label env question answer = processRetryResponse t) := by
  intro env question answer
  obtain ⟨hk, c1, c2⟩ := env
  refine ⟨?_, ?_, ?_, ?_⟩
  · intro h
    dsimp only at h
    subst h
    rfl
  · intro m h1 h2
    dsimp only at h1
    subst h1
    cases hk
    · rfl
    · simp [generate_label, generateLabelTry, get_client, h2]
  · intro m m2 h1 hrl h2
    dsimp only at h1 h2
    subst h1
    subst h2
    cases hk
    · rfl
    · simp [generate_label, generateLabelTry, generateLabelRetry, get_client, hrl]
  · intro m t hk1 h1 hrl h2
    dsimp only at hk1 h1 h2
    subst hk1
    subst h1
    subst h2
    simp [generate_label, generateLabelTry, generateLabelRetry, get_client, hrl]

/-- C7 (witness): the four handled paths at concrete environments. -/
theorem c7_label_failure_handling_witness :
    generate_label (LabelEnv.mk true (CallOutcome.failure "socket error")
      (CallOutcome.success "ok")) "q" "a" = fallbackLabel ∧
    generate_label (LabelEnv.mk true (CallOutcome.failure "429 quota")
      (CallOutcome.failure "429 quota again")) "q" "a" = fallbackLabel ∧
    generate_label (LabelEnv.mk true (CallOutcome.failure "429 quota")
      (CallOutcome.success "  Retry Label  ")) "q" "a" =
      processRetryResponse "  Retry Label  " ∧
    generate_label (LabelEnv.mk false (CallOutcome.success "x")
      (CallOutcome.success "x")) "q" "a" = fallbackLabel :=
  ⟨(c7_label_failure_handling _ "q" "a").2.1 "socket error" rfl (by decide),
   (c7_label_failure_handling _ "q" "a").2.2.1 "429 quota" "429 quota again"
     rfl (by decide) rfl,
   (c7_label_failure_handling _ "q" "a").2.2.2 "429 quota" "  Retry Label  "
     rfl rfl (by decide) rfl,
   (c7_label_failure_handling _ "q" "a").1 rfl⟩

/-- C4 (counterexample): the claim says order values are exactly `1..N`
with no gaps even when the structured pre-parser drops elements; the
code numbers by the 1-based source index of `enumerate`, so dropping the
malformed middle element of `gapJson` leaves orders `[1, 3]`, not
`[1, 2]`. -/
theorem c4_orders_gap_counterexample :
    parse_chat AiOutcome.noKey gapJson = Except.ok
      [ParsedSession.mk 1 "a" "b", ParsedSession.mk 3 "c" "d"] ∧
    [ParsedSession.mk 1 "a" "b", ParsedSession.mk 3 "c" "d"].map
      (fun s => s.order) ≠ [1, 2] :=
  ⟨rfl, by decide⟩

/-- C4 (amended): for every input and AI outcome, the order values of a
successful parse are 1-based and strictly increasing, but not
necessarily consecutive: the structured pre-parser numbers turns by
their source index, so dropped elements leave gaps. -/
theorem c4_orders_increasing_amended :
    ∀ (ai : AiOutcome) (content : String) (sessions : List ParsedSession),
      parse_chat ai content = Except.ok sessions →
      (∀ s ∈ sessions, 1 ≤ s.order) ∧
      sessions.Pairwise (fun a b => a.order < b.order) := by
  intro ai content sessions h
  obtain ⟨hall, hpw⟩ := parse_chat_inv ai content sessions h
  exact ⟨fun s hs => (hall s hs).1, hpw⟩

/-- C4 (witness): the amended claim at the gap input. -/
theorem c4_orders_increasing_witness :
    List.Pairwise (fun a b : ParsedSession => a.order < b.order)
      [ParsedSession.mk 1 "a" "b", ParsedSession.mk 3 "c" "d"] :=
  (c4_orders_increasing_amended AiOutcome.noKey gapJson
    [ParsedSession.mk 1 "a" "b", ParsedSession.mk 3 "c" "d"] rfl).2

/-- C8 (counterexample): the claim says structured input decoding to
zero valid turns gives no result and the cascade proceeds; on `"[]"` the
top-level-array branch returns a (truthy) `ParseResult` with zero
sessions, so `parse_chat` stops there and returns zero turns even though
the AI stage would have produced a turn. -/
theorem c8_empty_array_stops_cascade_counterexample :
    parse_chat (AiOutcome.decoded [qaPairJson]) "[]" = Except.ok [] ∧
    parse_with_ai (AiOutcome.decoded [qaPairJson])
      (normalizeNewlines (pyStrip "[]")) = [ParsedSession.mk 1 "q" "a"] :=
  ⟨rfl, rfl⟩

/-- C8 (amended): the cascade stops at any stage returning a non-`None`
result and proceeds on `None`; decode failure and the object branch with
zero valid turns yield `None`, but the top-level-array branch returns a
`ParseResult` even with zero valid turns, terminating the cascade with
an empty result instead of proceeding. -/
theorem c8_cascade_amended :
    (∀ (ai : AiOutcome) (content : String) (r : ParseResult),
        parse_json_format (pyStrip content) = Except.ok (some r) →
        parse_chat ai content = Except.ok r.sessions) ∧
    (∀ (ai : AiOutcome) (content : String),
        parse_json_format (pyStrip content) = Except.ok none →
        parse_chat ai content =
          if parse_with_ai ai (normalizeNewlines (pyStrip content)) ≠ [] then
            Except.ok (parse_with_ai ai (normalizeNewlines (pyStrip content)))
          else Except.ok (parse_fallback (normalizeNewlines (pyStrip content)))) ∧
    (∀ (content : String) (items : List Json) (sessions : List ParsedSession),
        startsWithChar content '[' = true →
        jsonLoads content = some (Json.arr items) →
        collectSessions items = Except.ok sessions →
        parse_json_format content =
          Except.ok (some (ParseResult.mk sessions (Json.str "") (Json.str "unknown")))) := by
  refine ⟨?_, ?_, ?_⟩
  · intro ai content r h
    unfold parse_chat
    rw [h]
  · intro ai content h
    unfold parse_chat
    rw [h]
  · intro content items sessions hsw hload hcollect
    simp [parse_json_format, hsw, hload, hcollect]

/-- C8 (witness): the stop-on-some and array-branch facts at `"[]"`. -/
theorem c8_cascade_witness :
    parse_chat AiOutcome.noKey "[]" = Except.ok [] ∧
    parse_json_format "[]" =
      Except.ok (some (ParseResult.mk [] (Json.str "") (Json.str "unknown"))) :=
  ⟨c8_cascade_amended.1 AiOutcome.noKey "[]"
      (ParseResult.mk [] (Json.str "") (Json.str "unknown")) rfl,
   c8_cascade_amended.2.2 "[]" [] [] rfl rfl rfl⟩

/-- Messages of the validation gate are distinct strings. -/
theorem noSessionsMsg_ne_allEmptyMsg : noSessionsMsg ≠ allEmptyMsg := by decide

/-- C9 (confirmed): the validation gate fails with the empty-result
message exactly when there are zero turns, fails with the
all-questions-empty message exactly when the list is non-empty and every
question is empty, and accepts (with an empty error message) exactly the
remaining outcomes. -/
theorem c9_validation_gate :
    ∀ sessions : List ParsedSession,
      (validate_parsed_sessions sessions = (false, noSessionsMsg) ↔ sessions = []) ∧
      (validate_parsed_sessions sessions = (false, allEmptyMsg) ↔
        sessions ≠ [] ∧ ∀ s ∈ sessions, s.question = "") ∧
      (validate_parsed_sessions sessions = (true, "") ↔
        sessions ≠ [] ∧ ∃ s ∈ sessions, s.question ≠ "") := by
  intro sessions
  by_cases hnil : sessions = []
  · subst hnil
    refine ⟨by simp [validate_parsed_sessions], ?_, ?_⟩
    · simp [validate_parsed_sessions, noSessionsMsg_ne_allEmptyMsg]
    · simp [validate_parsed_sessions]
  · by_cases hall : sessions.countP (fun s => s.question == "") = sessions.length
    · have heval : validate_parsed_sessions sessions = (false, allEmptyMsg) := by
        simp [validate_parsed_sessions, hnil, hall]
      refine ⟨?_, ?_, ?_⟩
      · rw [heval]
        simp [hnil, Ne.symm noSessionsMsg_ne_allEmptyMsg]
      · rw [heval]
        simp only [eq_self_iff_true, true_iff]
        refine ⟨hnil, fun s hs => ?_⟩
        have := List.countP_eq_length.mp hall s hs
        simpa using this
      · rw [heval]
        constructor
        · intro h
          simp at h
        · rintro ⟨-, s, hs, hq⟩
          have := List.countP_eq_length.mp hall s hs
          simp at this
          exact absurd this hq
    · have heval : validate_parsed_sessions sessions = (true, "") := by
        simp [validate_parsed_sessions, hnil, hall]
      refine ⟨?_, ?_, ?_⟩
      · rw [heval]
        simp [hnil]
      · rw [heval]
        constructor
        · intro h
          simp at h
        · rintro ⟨-, hforall⟩
          exact absurd (List.countP_eq_length.mpr (fun s hs => by simp [hforall s hs])) hall
      · rw [heval]
        have hex : ¬ ∀ s ∈ sessions, (fun s : ParsedSession => s.question == "") s :=
          fun hf => hall (List.countP_eq_length.mpr hf)
        push_neg at hex
        obtain ⟨s, hs, hq⟩ := hex
        refine ⟨fun _ => ⟨hnil, s, hs, ?_⟩, fun _ => rfl⟩
        simpa using hq

/-- C9 (witness): the three gate outcomes at concrete session lists. -/
theorem c9_validation_gate_witness :
    validate_parsed_sessions [] = (false, noSessionsMsg) ∧
    validate_parsed_sessions [ParsedSession.mk 1 "" ""] = (false, allEmptyMsg) ∧
    validate_parsed_sessions [ParsedSession.mk 1 "x" ""] = (true, "") :=
  ⟨(c9_validation_gate []).1.mpr rfl,
   (c9_validation_gate [ParsedSession.mk 1 "" ""]).2.1.mpr
     ⟨by simp, by simp⟩,
   (c9_validation_gate [ParsedSession.mk 1 "x" ""]).2.2.mpr
     ⟨by simp, ParsedSession.mk 1 "x" "", by simp, by simp⟩⟩

/-- C10 (confirmed): every turn of a successful parse has a question
that is non-empty after trimming and a non-empty answer, on every path
of the cascade (structured, AI, fallback) and for every input and AI
outcome. -/
theorem c10_turns_nonempty :
    ∀ (ai : AiOutcome) (content : String) (sessions : List ParsedSession),
      parse_chat ai content = Except.ok sessions →
      ∀ s ∈ sessions, pyStrip s.question ≠ "" ∧ s.answer ≠ "" := by
  intro ai content sessions h s hs
  obtain ⟨hall, -⟩ := parse_chat_inv ai content sessions h
  obtain ⟨-, hq, ha, hstr⟩ := hall s hs
  rw [hstr]
  exact ⟨hq, ha⟩

/-- C10 (witness): the invariant at a concrete structured input. -/
theorem c10_turns_nonempty_witness :
    pyStrip "hi" ≠ "" ∧ "there" ≠ "" :=
  c10_turns_nonempty AiOutcome.noKey simpleJson [ParsedSession.mk 1 "hi" "there"] rfl
    (ParsedSession.mk 1 "hi" "there") (List.mem_singleton.mpr rfl)
